import Mathlib

/-!
# Sprint-Summary-Agent: verification of the metrics / health / aggregation core

Shallow embedding of the computational core of the Sprint-Summary-Agent
repository:

* `SprintDataCollector.calculateMetrics`, `analyzeSprintHealth`,
  `extractAccomplishments`, `extractBlockers` (sprint data collector module);
* `LLMRecommendationsGenerator.generateFallbackRecommendations`
  (`src/llmRecommendations.js`);
* `OutputGenerator.generateCombinedSummary`, `saveCombinedSummary`
  (output generator module).

JavaScript numbers are modelled as exact rationals (`ℚ`); `toFixed(1)`
is modelled as exact rounding to tenths.  JavaScript `x || y` fallbacks on
optional numeric/string fields are modelled explicitly, including the fact
that `0` and `""` are falsy.  In-place array mutation (`Array.prototype.sort`)
is modelled by explicit state passing: `extractAccomplishments` returns the
updated `Metrics` record alongside its result.
-/

namespace SprintSummary

/-- JS `x || d` for an optional numeric field: `undefined` and `0` are falsy. -/
def jsOrQ : Option ℚ → ℚ → ℚ
  | some v, d => if v = 0 then d else v
  | none, d => d

/-- JS `x || d` for an optional string field: `undefined` and `""` are falsy. -/
def jsOrStr : Option String → String → String
  | some s, d => if s = "" then d else s
  | none, d => d

/-- Does `pat` occur as a contiguous sublist of the given list? -/
def containsSub (pat : List Char) : List Char → Bool
  | [] => pat.isEmpty
  | c :: t => pat.isPrefixOf (c :: t) || containsSub pat t

/-- JS `String.prototype.includes`. -/
def strIncludes (s pat : String) : Bool := containsSub pat.toList s.toList

/-- JS `Number.prototype.toFixed(1)` followed by `parseFloat`: the number
rounded to one fractional digit (round half up). -/
def round1 (q : ℚ) : ℚ := (Rat.floor (q * 10 + 1/2) : ℚ) / 10

/-- JS `Number.prototype.toFixed(1)` as a string, e.g. `"60.0"`. -/
def toFixed1 (q : ℚ) : String :=
  let t := Rat.floor (q * 10 + 1/2)
  toString (t / 10) ++ "." ++ toString (t % 10)

/-- Template-literal rendering of a number (`${n}`).  Exact for integers and
for the one-fractional-digit values produced by the metrics calculator. -/
def jsNumRepr (q : ℚ) : String :=
  if q.den = 1 then toString q.num else toFixed1 q

/-- A Jira issue, restricted to the fields the core reads
(`issue.fields...`). -/
structure Issue where
  key : String
  summary : String
  /-- Source field `issue.fields.status.statusCategory.name`. -/
  statusCategoryName : String
  /-- Source field `issue.fields.status.name`. -/
  statusName : String
  /-- Source field `issue.fields.customfield_20826` (story points, first candidate). -/
  storyPoints20826 : Option ℚ
  /-- Source field `issue.fields.customfield_10016` (story points, second candidate). -/
  storyPoints10016 : Option ℚ
  /-- Source field `issue.fields.issuetype.name`. -/
  issuetypeName : String
  /-- Source field `issue.fields.priority?.name`. -/
  priorityName : Option String
  /-- Source field `issue.fields.assignee?.displayName`. -/
  assigneeDisplayName : Option String
  /-- Source field `issue.fields.labels` (optional in the source: `labels?.includes`). -/
  labels : Option (List String)
deriving DecidableEq, Repr

/-- A sprint record, restricted to the fields the core reads.  Dates are
milliseconds since the epoch, as produced by `new Date(...)`. -/
structure Sprint where
  id : ℕ
  name : String
  state : String
  startDate : ℤ
  endDate : ℤ
  goal : Option String
deriving DecidableEq, Repr

/-- The `{ issues, sprint }` part of the collector's `sprintData`. -/
structure SprintData where
  sprint : Sprint
  issues : List Issue
deriving DecidableEq, Repr

/-- The `statusGroups` record as built by `calculateMetrics`. -/
structure StatusGroups where
  completed : List Issue
  inProgress : List Issue
  todo : List Issue
  blocked : List Issue
deriving DecidableEq, Repr

/-- The record returned by `calculateMetrics`. -/
structure Metrics where
  totalIssues : ℕ
  completedIssues : ℕ
  inProgressIssues : ℕ
  todoIssues : ℕ
  issuesByType : List (String × ℕ)
  blockedIssues : ℕ
  totalStoryPoints : ℚ
  completedStoryPoints : ℚ
  velocity : ℕ
  velocityPercentage : ℚ
  completionRate : ℚ
  durationDays : ℤ
  startDate : ℤ
  endDate : ℤ
  issueTypes : List (String × ℕ)
  priorities : List (String × ℕ)
  statusGroups : StatusGroups
deriving DecidableEq, Repr

/-- The blocked-issue tag:
`issue.fields.labels?.includes('blocked') ||
 issue.fields.status.name.toLowerCase().includes('block')`. -/
def isBlocked (issue : Issue) : Bool :=
  (match issue.labels with
   | some ls => ls.contains "blocked"
   | none => false)
  || strIncludes issue.statusName.toLower "block"

/-- Story points: `issue.fields.customfield_20826 || issue.fields.customfield_10016 || 0`. -/
def storyPointsOf (issue : Issue) : ℚ :=
  jsOrQ issue.storyPoints20826 (jsOrQ issue.storyPoints10016 0)

/-- JS object used as a counter map: existing keys are incremented in place
(keeping their position), new keys are appended. -/
def bumpCount (m : List (String × ℕ)) (k : String) : List (String × ℕ) :=
  if m.any (fun p => p.1 = k) then
    m.map (fun p => if p.1 = k then (p.1, p.2 + 1) else p)
  else m ++ [(k, 1)]

/-- Accumulator of the `issues.forEach` loop in `calculateMetrics`. -/
structure MetricsAcc where
  completed : List Issue
  inProgress : List Issue
  todo : List Issue
  blocked : List Issue
  totalStoryPoints : ℚ
  completedStoryPoints : ℚ
  issueTypes : List (String × ℕ)
  priorities : List (String × ℕ)
deriving DecidableEq, Repr

/-- One iteration of the `issues.forEach(issue => ...)` loop of
`calculateMetrics`. -/
def stepIssue (acc : MetricsAcc) (issue : Issue) : MetricsAcc :=
  let status := issue.statusCategoryName.toLower
  let storyPoints := storyPointsOf issue
  let issueType := issue.issuetypeName
  let priority := jsOrStr issue.priorityName "None"
  let acc :=
    if status = "done" then
      { acc with
          completed := acc.completed ++ [issue]
          completedStoryPoints := acc.completedStoryPoints + storyPoints }
    else if status = "in progress" || status = "indeterminate" then
      { acc with inProgress := acc.inProgress ++ [issue] }
    else
      { acc with todo := acc.todo ++ [issue] }
  let acc :=
    if isBlocked issue then { acc with blocked := acc.blocked ++ [issue] }
    else acc
  let acc := { acc with totalStoryPoints := acc.totalStoryPoints + storyPoints }
  let acc := { acc with issueTypes := bumpCount acc.issueTypes issueType }
  { acc with priorities := bumpCount acc.priorities priority }

/-- Embeds `SprintDataCollector.calculateMetrics`. -/
def calculateMetrics (sprintData : SprintData) : Metrics :=
  let issues := sprintData.issues
  let sprint := sprintData.sprint
  let acc := issues.foldl stepIssue ⟨[], [], [], [], 0, 0, [], []⟩
  let durationDays : ℤ :=
    Rat.ceil (((sprint.endDate - sprint.startDate : ℤ) : ℚ) / (1000 * 60 * 60 * 24))
  -- "Calculate velocity based on issues (not story points)" (source comment)
  let velocity := acc.completed.length
  let velocityPercentage : ℚ :=
    if issues.length > 0 then
      round1 (((acc.completed.length : ℚ) / (issues.length : ℚ)) * 100)
    else 0
  let completionRate : ℚ :=
    if issues.length > 0 then
      round1 (((acc.completed.length : ℚ) / (issues.length : ℚ)) * 100)
    else 0
  { totalIssues := issues.length
    completedIssues := acc.completed.length
    inProgressIssues := acc.inProgress.length
    todoIssues := acc.todo.length
    issuesByType := acc.issueTypes
    blockedIssues := acc.blocked.length
    totalStoryPoints := acc.totalStoryPoints
    completedStoryPoints := acc.completedStoryPoints
    velocity := velocity
    velocityPercentage := velocityPercentage
    completionRate := completionRate
    durationDays := durationDays
    startDate := sprint.startDate
    endDate := sprint.endDate
    issueTypes := acc.issueTypes
    priorities := acc.priorities
    statusGroups := ⟨acc.completed, acc.inProgress, acc.todo, acc.blocked⟩ }

/-- One entry of `healthIndicators`. -/
structure HealthIndicator where
  indicator : String
  status : String
  message : String
deriving DecidableEq, Repr

/-- The record returned by `analyzeSprintHealth`. -/
structure HealthAnalysis where
  overallHealth : String
  healthIndicators : List HealthIndicator
deriving DecidableEq, Repr

/-- The "Velocity check" block of `analyzeSprintHealth`, acting on the
`(healthIndicators, overallHealth)` state. -/
def velocityCheck (metrics : Metrics) (st : List HealthIndicator × String) :
    List HealthIndicator × String :=
  if metrics.velocityPercentage < 60 then
    (st.1 ++ [⟨"Velocity", "Poor",
        "Only " ++ jsNumRepr metrics.velocityPercentage ++ "% of story points completed"⟩],
     "Poor")
  else if metrics.velocityPercentage < 80 then
    (st.1 ++ [⟨"Velocity", "Fair",
        jsNumRepr metrics.velocityPercentage ++ "% of story points completed"⟩],
     if st.2 = "Good" then "Fair" else st.2)
  else
    (st.1 ++ [⟨"Velocity", "Good",
        jsNumRepr metrics.velocityPercentage ++ "% of story points completed"⟩],
     st.2)

/-- The "Completion rate check" block of `analyzeSprintHealth`. -/
def completionRateCheck (metrics : Metrics) (st : List HealthIndicator × String) :
    List HealthIndicator × String :=
  if metrics.completionRate < 60 then
    (st.1 ++ [⟨"Completion Rate", "Poor",
        "Only " ++ jsNumRepr metrics.completionRate ++ "% of issues completed"⟩],
     "Poor")
  else if metrics.completionRate < 80 then
    (st.1 ++ [⟨"Completion Rate", "Fair",
        jsNumRepr metrics.completionRate ++ "% of issues completed"⟩],
     if st.2 = "Good" then "Fair" else st.2)
  else
    (st.1 ++ [⟨"Completion Rate", "Good",
        jsNumRepr metrics.completionRate ++ "% of issues completed"⟩],
     st.2)

/-- The "Blocked issues check" block of `analyzeSprintHealth`. -/
def blockedCheck (metrics : Metrics) (st : List HealthIndicator × String) :
    List HealthIndicator × String :=
  if 0 < metrics.blockedIssues then
    (st.1 ++ [⟨"Blockers", "Warning",
        toString metrics.blockedIssues ++ " blocked issue(s) detected"⟩],
     if st.2 = "Good" then "Fair" else st.2)
  else st

/-- The "In-progress issues check" block of `analyzeSprintHealth`. -/
def wipCheck (metrics : Metrics) (st : List HealthIndicator × String) :
    List HealthIndicator × String :=
  if metrics.completedIssues < metrics.inProgressIssues then
    (st.1 ++ [⟨"Work in Progress", "Warning",
        "More issues in progress than completed"⟩],
     st.2)
  else st

/-- Embeds `SprintDataCollector.analyzeSprintHealth`: the four checks run in order on
the initial state `([], 'Good')`. -/
def analyzeSprintHealth (metrics : Metrics) : HealthAnalysis :=
  let st := wipCheck metrics
    (blockedCheck metrics (completionRateCheck metrics (velocityCheck metrics ([], "Good"))))
  ⟨st.2, st.1⟩

/-- The projection produced by `extractAccomplishments`. -/
structure Accomplishment where
  key : String
  summary : String
  type : String
  priority : String
  assignee : String
  storyPoints : ℚ
deriving DecidableEq, Repr

/-- The projection produced by `extractBlockers`. -/
structure Blocker where
  key : String
  summary : String
  type : String
  priority : String
  assignee : String
  status : String
deriving DecidableEq, Repr

/-- The `priorityOrder` table lookup `priorityOrder[a.fields.priority?.name]`,
`none` for an absent or unknown priority name. -/
def priorityOrderLookup : Option String → Option ℕ
  | some "Highest" => some 0
  | some "High" => some 1
  | some "Medium" => some 2
  | some "Low" => some 3
  | some "Lowest" => some 4
  | _ => none

/-- Lookup `priorityOrder[a.fields.priority?.name] || 5`.  JS `||` treats the rank
`0` as falsy, so a `'Highest'` priority falls through to `5` just like an
unknown one. -/
def effPriorityRank (p : Option String) : ℕ :=
  match priorityOrderLookup p with
  | some v => if v = 0 then 5 else v
  | none => 5

/-- The preorder realised by the comparator `aPriority - bPriority` of
`extractAccomplishments`. -/
def accRel (a b : Issue) : Prop :=
  effPriorityRank a.priorityName ≤ effPriorityRank b.priorityName

instance : DecidableRel accRel := fun a b =>
  inferInstanceAs (Decidable (_ ≤ _))

instance : IsTotal Issue accRel := ⟨fun a b => Nat.le_total _ _⟩

instance : IsTrans Issue accRel := ⟨fun _ _ _ => Nat.le_trans⟩

/-- Embeds `SprintDataCollector.extractAccomplishments`.  The source sorts
`metrics.statusGroups.completed` **in place** (`Array.prototype.sort`, stable)
before slicing off the first 10, so the call returns the projected list
together with the updated `Metrics` record. -/
def extractAccomplishments (metrics : Metrics) ( issues : List Issue) :
    List Accomplishment × Metrics :=
  let sortedCompleted := List.insertionSort accRel metrics.statusGroups.completed
  let result := (sortedCompleted.take 10).map fun issue =>
    { key := issue.key
      summary := issue.summary
      type := issue.issuetypeName
      priority := jsOrStr issue.priorityName "None"
      assignee := jsOrStr issue.assigneeDisplayName "Unassigned"
      storyPoints := jsOrQ issue.storyPoints10016 0 : Accomplishment }
  (result,
   { metrics with
       statusGroups := { metrics.statusGroups with completed := sortedCompleted } })

/-- Embeds `SprintDataCollector.extractBlockers`: a pure `map` over
`metrics.statusGroups.blocked`. -/
def extractBlockers (metrics : Metrics) : List Blocker :=
  metrics.statusGroups.blocked.map fun issue =>
    { key := issue.key
      summary := issue.summary
      type := issue.issuetypeName
      priority := jsOrStr issue.priorityName "None"
      assignee := jsOrStr issue.assigneeDisplayName "Unassigned"
      status := issue.statusName }

/-- One `{category, priority, recommendation}` entry. -/
structure Recommendation where
  category : String
  priority : String
  recommendation : String
deriving DecidableEq, Repr

/-- Embeds `LLMRecommendationsGenerator.generateFallbackRecommendations`
(`src/llmRecommendations.js`): the rule table evaluated in source order, with
the `General/Low` entry when no rule fired. -/
def generateFallbackRecommendations (metrics : Metrics) : List Recommendation :=
  let recommendations : List Recommendation := []
  let recommendations := recommendations ++
    (if metrics.velocityPercentage < 80 then
      [⟨"Velocity", "High",
        "Consider reducing sprint commitment or identifying impediments affecting team velocity"⟩]
     else [])
  let recommendations := recommendations ++
    (if 0 < metrics.blockedIssues then
      [⟨"Blockers", "High",
        "Address " ++ toString metrics.blockedIssues ++
          " blocked issue(s) immediately to prevent future sprint delays"⟩]
     else [])
  let recommendations := recommendations ++
    (if metrics.completedIssues < metrics.inProgressIssues then
      [⟨"WIP Limit", "Medium",
        "Too much work in progress. Consider implementing WIP limits to improve flow"⟩]
     else [])
  let recommendations := recommendations ++
    (if 0 < metrics.todoIssues then
      [⟨"Sprint Planning", "Medium",
        toString metrics.todoIssues ++ " issue(s) not started. Review sprint planning and capacity"⟩]
     else [])
  if recommendations = [] then
    [⟨"General", "Low",
      "Sprint executed well. Continue current practices and look for incremental improvements"⟩]
  else recommendations

/-- The fallback rule table as the specification words it: the
`(category, priority)` pairs fired in order, a single `General/Low` pair if
none fired.  Used only to compare `generateFallbackRecommendations` against
the spec sentence. -/
def fallbackSpecPairs (metrics : Metrics) : List (String × String) :=
  let fired :=
    (if metrics.velocityPercentage < 80 then [("Velocity", "High")] else [])
    ++ (if 0 < metrics.blockedIssues then [("Blockers", "High")] else [])
    ++ (if metrics.completedIssues < metrics.inProgressIssues then
          [("WIP Limit", "Medium")] else [])
    ++ (if 0 < metrics.todoIssues then [("Sprint Planning", "Medium")] else [])
  if fired = [] then [("General", "Low")] else fired

/-- Record `summary.projectInfo`, as built by `generateSummary`. -/
structure ProjectInfo where
  key : String
  name : String
deriving DecidableEq, Repr

/-- Record `summary.sprintHealthMetrics`, as built by `generateSummary`: the numeric
counts and sums together with the `"<rate>%"` display strings. -/
structure SprintHealthMetricsView where
  overallHealth : String
  totalIssues : ℕ
  completedIssues : ℕ
  inProgressIssues : ℕ
  todoIssues : ℕ
  blockedIssues : ℕ
  completionRate : String
  velocity : ℕ
  totalStoryPoints : ℚ
  completedStoryPoints : ℚ
  velocityPercentage : String
  sprintDurationDays : ℤ
deriving DecidableEq, Repr

/-- A per-(project, team) summary, restricted to the fields
`generateCombinedSummary` reads.  (`sprintInfo`, `generatedAt` and the other
rendering-only sections are not consumed by the aggregator.) -/
structure Summary where
  projectInfo : ProjectInfo
  /-- Source field `summary.teamInfo.label`. -/
  teamLabel : String
  sprintHealthMetrics : SprintHealthMetricsView
  /-- Source field `summary.sprintHealthAnalysis.overallHealth`. -/
  overallHealth : String
  currentBlockers : List Blocker
  keyAccomplishments : List Accomplishment
  /-- Source field `summary.teamComposition.totalMembers`. -/
  totalMembers : ℕ
deriving DecidableEq, Repr

/-- A blocker tagged with its source team and project
(`{ ...b, team, project }`). -/
structure CombinedBlocker extends Blocker where
  team : String
  project : String
deriving DecidableEq, Repr

/-- An accomplishment tagged with its source team and project
(`{ ...a, team, project }`). -/
structure CombinedAccomplishment extends Accomplishment where
  team : String
  project : String
deriving DecidableEq, Repr

/-- One line of `combined.teamSummaries`. -/
structure TeamSummaryLine where
  team : String
  project : String
  health : String
  completionRate : String
  velocity : ℕ
deriving DecidableEq, Repr

/-- The eight additive counters of `combinedMetrics`. -/
structure CombinedCounters where
  totalIssues : ℕ
  completedIssues : ℕ
  inProgressIssues : ℕ
  todoIssues : ℕ
  blockedIssues : ℕ
  totalStoryPoints : ℚ
  completedStoryPoints : ℚ
  totalTeamMembers : ℕ
deriving DecidableEq, Repr

/-- Record `combined.sprintHealthMetrics`: the summed counters spread together with
the recomputed display rates and `velocity: combinedMetrics.completedStoryPoints`. -/
structure CombinedHealthMetrics extends CombinedCounters where
  completionRate : String
  velocityPercentage : String
  velocity : ℚ
deriving DecidableEq, Repr

/-- The record returned by `generateCombinedSummary` (the wall-clock
`generatedAt` timestamp is outside the model). -/
structure CombinedSummary where
  title : String
  projects : List ProjectInfo
  teams : List String
  sprintHealthMetrics : CombinedHealthMetrics
  currentBlockers : List CombinedBlocker
  keyAccomplishments : List CombinedAccomplishment
  teamSummaries : List TeamSummaryLine
deriving DecidableEq, Repr

/-- JS `Map.prototype.set` on a map kept as an insertion-ordered association
list: an existing key keeps its position and gets the new value, a new key is
appended. -/
def mapSet {α : Type} (m : List (String × α)) (k : String) (v : α) :
    List (String × α) :=
  if m.any (fun p => p.1 = k) then
    m.map (fun p => if p.1 = k then (k, v) else p)
  else m ++ [(k, v)]

/-- The preorder realised by the combined-accomplishment comparator
`(b.storyPoints || 0) - (a.storyPoints || 0)` (descending by story points;
the `|| 0` is the identity here since the field is always a number in the
model). -/
def combinedAccRel (a b : CombinedAccomplishment) : Prop :=
  b.storyPoints ≤ a.storyPoints

instance : DecidableRel combinedAccRel := fun a b =>
  inferInstanceAs (Decidable (_ ≤ _))

/-- Embeds `OutputGenerator.generateCombinedSummary`.  The `allSummaries.forEach`
accumulation of `combinedMetrics` is rendered as per-field sums; blocker and
accomplishment collection as concatenation in summary order. -/
def generateCombinedSummary (allSummaries : List Summary) : Option CombinedSummary :=
  if allSummaries.length = 0 then none
  else
    let combinedMetrics : CombinedCounters :=
      { totalIssues := (allSummaries.map (fun s => s.sprintHealthMetrics.totalIssues)).sum
        completedIssues := (allSummaries.map (fun s => s.sprintHealthMetrics.completedIssues)).sum
        inProgressIssues := (allSummaries.map (fun s => s.sprintHealthMetrics.inProgressIssues)).sum
        todoIssues := (allSummaries.map (fun s => s.sprintHealthMetrics.todoIssues)).sum
        blockedIssues := (allSummaries.map (fun s => s.sprintHealthMetrics.blockedIssues)).sum
        totalStoryPoints := (allSummaries.map (fun s => s.sprintHealthMetrics.totalStoryPoints)).sum
        completedStoryPoints := (allSummaries.map (fun s => s.sprintHealthMetrics.completedStoryPoints)).sum
        totalTeamMembers := (allSummaries.map (fun s => s.totalMembers)).sum }
    let allBlockers : List CombinedBlocker :=
      allSummaries.flatMap fun s =>
        s.currentBlockers.map fun b =>
          { toBlocker := b, team := s.teamLabel, project := s.projectInfo.key }
    let allAccomplishments : List CombinedAccomplishment :=
      allSummaries.flatMap fun s =>
        s.keyAccomplishments.map fun a =>
          { toAccomplishment := a, team := s.teamLabel, project := s.projectInfo.key }
    let projectsMap : List (String × String) :=
      allSummaries.foldl (fun m s => mapSet m s.projectInfo.key s.projectInfo.name) []
    let teamsMap : List (String × Bool) :=
      allSummaries.foldl (fun m s => mapSet m s.teamLabel true) []
    let completionRate : String :=
      if 0 < combinedMetrics.totalIssues then
        toFixed1 (((combinedMetrics.completedIssues : ℚ) / (combinedMetrics.totalIssues : ℚ)) * 100)
      else "0"
    let velocityPercentage : String :=
      if 0 < combinedMetrics.totalStoryPoints then
        toFixed1 ((combinedMetrics.completedStoryPoints / combinedMetrics.totalStoryPoints) * 100)
      else "0"
    some
      { title := "Combined Sprint Summary - All Teams"
        projects := projectsMap.map fun p => ⟨p.1, p.2⟩
        teams := teamsMap.map fun p => p.1
        sprintHealthMetrics :=
          { toCombinedCounters := combinedMetrics
            completionRate := completionRate ++ "%"
            velocityPercentage := velocityPercentage ++ "%"
            velocity := combinedMetrics.completedStoryPoints }
        currentBlockers := allBlockers.take 20
        keyAccomplishments := (List.insertionSort combinedAccRel allAccomplishments).take 20
        teamSummaries := allSummaries.map fun s =>
          { team := s.teamLabel
            project := s.projectInfo.key
            health := s.overallHealth
            completionRate := s.sprintHealthMetrics.completionRate
            velocity := s.sprintHealthMetrics.velocity } }

/-- Embeds `OutputGenerator.saveCombinedSummary`.  File writing is modelled by the
list of paths written (the JSON/Markdown contents are rendering, outside the
core); the result is the `{ jsonPath, mdPath }` pair, `none` when the input
combined summary is `null`. -/
def saveCombinedSummary (combinedSummary : Option CombinedSummary)
    (outputDir : String) : Option (String × String) × List String :=
  match combinedSummary with
  | none => (none, [])
  | some _ =>
    let jsonPath := outputDir ++ "/sprint-summary-combined.json"
    let mdPath := outputDir ++ "/sprint-summary-combined.md"
    (some (jsonPath, mdPath), [jsonPath, mdPath])

/-! ### Concrete inputs used by the claims -/

/-- A done issue with the given key, story points and priority. -/
def doneIssue (key : String) (sp : ℚ) (prio : Option String) : Issue :=
  { key := key
    summary := "done work"
    statusCategoryName := "Done"
    statusName := "Done"
    storyPoints20826 := none
    storyPoints10016 := some sp
    issuetypeName := "Story"
    priorityName := prio
    assigneeDisplayName := none
    labels := some [] }

/-- An in-progress issue. -/
def inProgressIssue (key : String) (sp : ℚ) : Issue :=
  { key := key
    summary := "ongoing work"
    statusCategoryName := "In Progress"
    statusName := "In Progress"
    storyPoints20826 := none
    storyPoints10016 := some sp
    issuetypeName := "Story"
    priorityName := some "Medium"
    assigneeDisplayName := none
    labels := some [] }

/-- A not-started issue. -/
def todoIssue (key : String) (sp : ℚ) : Issue :=
  { key := key
    summary := "future work"
    statusCategoryName := "To Do"
    statusName := "To Do"
    storyPoints20826 := none
    storyPoints10016 := some sp
    issuetypeName := "Story"
    priorityName := some "Medium"
    assigneeDisplayName := none
    labels := some [] }

/-- A fixed two-week sprint record. -/
def exampleSprint : Sprint :=
  { id := 1
    name := "Sprint 1"
    state := "closed"
    startDate := 0
    endDate := 14 * 24 * 60 * 60 * 1000
    goal := none }

/-- The spec's example sprint: 10 issues, 6 done / 2 in-progress / 2
not-started, total story points 20 of which 15 on done issues. -/
def exampleSprintData : SprintData :=
  { sprint := exampleSprint
    issues :=
      [doneIssue "D-1" 3 (some "High"), doneIssue "D-2" 3 (some "High"),
       doneIssue "D-3" 3 (some "Medium"), doneIssue "D-4" 2 (some "Medium"),
       doneIssue "D-5" 2 (some "Low"), doneIssue "D-6" 2 (some "Low"),
       inProgressIssue "P-1" 2, inProgressIssue "P-2" 1,
       todoIssue "T-1" 1, todoIssue "T-2" 1] }

/-- A done issue carrying the `blocked` label: counted in `completed` and
tagged `blocked` at the same time. -/
def doneBlockedIssue : Issue :=
  { doneIssue "DB-1" 1 (some "High") with labels := some ["blocked"] }

/-- An in-progress issue whose status name contains `block`. -/
def inProgressBlockedIssue : Issue :=
  { inProgressIssue "PB-1" 1 with statusName := "Blocked" }

/-- A not-started issue carrying the `blocked` label. -/
def todoBlockedIssue : Issue :=
  { todoIssue "TB-1" 1 with labels := some ["blocked"] }

/-- Severity order on the three ratings (`Good < Fair < Poor`). -/
def ratingRank : String → ℕ
  | "Fair" => 1
  | "Poor" => 2
  | _ => 0

/-- A `Metrics` record with the given rates and counts and empty groups, used
to exercise `analyzeSprintHealth` and `generateFallbackRecommendations` on
arbitrary inputs. -/
def mkMetrics (vel comp : ℚ) (blocked inProg completed todo : ℕ) : Metrics :=
  { totalIssues := completed + inProg + todo
    completedIssues := completed
    inProgressIssues := inProg
    todoIssues := todo
    issuesByType := []
    blockedIssues := blocked
    totalStoryPoints := 0
    completedStoryPoints := 0
    velocity := completed
    velocityPercentage := vel
    completionRate := comp
    durationDays := 14
    startDate := 0
    endDate := 0
    issueTypes := []
    priorities := []
    statusGroups := ⟨[], [], [], []⟩ }

/-- Modelled from the spec: the claimed fixed priority mapping
`{Highest:0, High:1, Medium:2, Low:3, Lowest:4, unknown:5}`. -/
def specPriorityRank (p : Option String) : ℕ :=
  (priorityOrderLookup p).getD 5

/-- The sort order the claim describes (by `specPriorityRank`). -/
def specAccRel (a b : Issue) : Prop :=
  specPriorityRank a.priorityName ≤ specPriorityRank b.priorityName

instance : DecidableRel specAccRel := fun a b =>
  inferInstanceAs (Decidable (_ ≤ _))

/-- Completed bucket `[Highest, High]` exercising the priority comparator. -/
def metricsHighestHigh : Metrics :=
  { mkMetrics 100 100 0 0 2 0 with
      statusGroups :=
        ⟨[doneIssue "HIGHEST-1" 1 (some "Highest"),
          doneIssue "HIGH-1" 1 (some "High")], [], [], []⟩ }

/-- Completed bucket `[Medium, High]`: not sorted by effective rank, so the
in-place sort reorders it. -/
def metricsMediumHigh : Metrics :=
  { mkMetrics 100 100 0 0 2 0 with
      statusGroups :=
        ⟨[doneIssue "MED-1" 1 (some "Medium"),
          doneIssue "HIGH-2" 1 (some "High")], [], [], []⟩ }

/-- A minimal per-team summary with the given completed/total issue counts,
completed/total story-point sums and displayed rate. -/
def mkSummary (projectKey teamLabel : String) (completed total : ℕ)
    (completedSP totalSP : ℚ) (rate : String) : Summary :=
  { projectInfo := ⟨projectKey, projectKey⟩
    teamLabel := teamLabel
    sprintHealthMetrics :=
      { overallHealth := "Good"
        totalIssues := total
        completedIssues := completed
        inProgressIssues := 0
        todoIssues := 0
        blockedIssues := 0
        completionRate := rate
        velocity := completed
        totalStoryPoints := totalSP
        completedStoryPoints := completedSP
        velocityPercentage := rate
        sprintDurationDays := 14 }
    overallHealth := "Good"
    currentBlockers := []
    keyAccomplishments := []
    totalMembers := 1 }

/-- One completed of 1 issue, 1 of 1 story points: displayed rates 100%. -/
def summaryAllDone : Summary := mkSummary "PROJ" "Team A" 1 1 1 1 "100.0%"

/-- Zero completed of 1 issue, 0 of 1 story points: displayed rates 0%. -/
def summaryNoneDone : Summary := mkSummary "PROJ" "Team B" 0 1 0 1 "0.0%"

/-- Zero completed of 3 issues, 0 of 3 story points: displayed rates 0%,
bigger denominators. -/
def summaryNoneDoneBig : Summary := mkSummary "PROJ" "Team C" 0 3 0 3 "0.0%"

/-! ### Structural lemmas about the `calculateMetrics` fold -/

lemma foldl_stepIssue_counts (issues : List Issue) (acc : MetricsAcc) :
    (issues.foldl stepIssue acc).completed.length
      + (issues.foldl stepIssue acc).inProgress.length
      + (issues.foldl stepIssue acc).todo.length
      = acc.completed.length + acc.inProgress.length + acc.todo.length
        + issues.length := by
  induction issues generalizing acc with
  | nil => simp
  | cons i is ih =>
    rw [List.foldl_cons, ih]
    simp only [stepIssue]
    split_ifs <;> simp <;> omega

lemma foldl_stepIssue_blocked (issues : List Issue) (acc : MetricsAcc) :
    (issues.foldl stepIssue acc).blocked
      = acc.blocked ++ issues.filter (fun i => isBlocked i) := by
  induction issues generalizing acc with
  | nil => simp
  | cons i is ih =>
    rw [List.foldl_cons, ih, List.filter_cons]
    simp only [stepIssue]
    split_ifs <;> simp

/-! ### Claims -/

/-- Claim C1, counterexample.  The spec's own example sprint (10 issues, 6 done,
total story points 20, completed story points 15) refutes the claim that
`velocityPercentage` is the completed/total story-point ratio: the code
computes it from issue counts, so it returns `60.0`, not `75.0`. -/
theorem velocityPercentage_not_storyPoint_ratio :
    (calculateMetrics exampleSprintData).totalStoryPoints = 20 ∧
    (calculateMetrics exampleSprintData).completedStoryPoints = 15 ∧
    (calculateMetrics exampleSprintData).completionRate = 60 ∧
    round1 ((calculateMetrics exampleSprintData).completedStoryPoints
      / (calculateMetrics exampleSprintData).totalStoryPoints * 100) = 75 ∧
    (calculateMetrics exampleSprintData).velocityPercentage = 60 ∧
    (calculateMetrics exampleSprintData).velocityPercentage
      ≠ round1 ((calculateMetrics exampleSprintData).completedStoryPoints
          / (calculateMetrics exampleSprintData).totalStoryPoints * 100) := by
  with_unfolding_all decide

/-- Claim C1, amended.  For every sprint with a non-empty issue list,
`calculateMetrics` returns `velocityPercentage` equal to
(completed issues / total issues) × 100 rounded to one fractional digit —
identical to `completionRate` — and on the spec's example sprint both are
`60.0`. -/
theorem velocityPercentage_issue_ratio (sd : SprintData)
    (h : 0 < sd.issues.length) :
    ((calculateMetrics sd).velocityPercentage
        = round1 ((((calculateMetrics sd).completedIssues : ℚ)
            / ((calculateMetrics sd).totalIssues : ℚ)) * 100) ∧
      (calculateMetrics sd).velocityPercentage
        = (calculateMetrics sd).completionRate) ∧
    ((calculateMetrics exampleSprintData).completionRate = 60 ∧
      (calculateMetrics exampleSprintData).velocityPercentage = 60) := by
  refine ⟨⟨?_, ?_⟩, by with_unfolding_all decide⟩ <;>
    simp [calculateMetrics, h]

/-- Witness for `velocityPercentage_issue_ratio` at the example sprint. -/
theorem velocityPercentage_issue_ratio_witness :
    0 < exampleSprintData.issues.length ∧
    (calculateMetrics exampleSprintData).velocityPercentage
      = (calculateMetrics exampleSprintData).completionRate :=
  ⟨by decide,
   (velocityPercentage_issue_ratio exampleSprintData (by decide)).1.2⟩

/-- Claim C4.  The three-way status classification is an exhaustive partition
(`completed + inProgress + todo = total`) for every issue list, while
`blockedIssues` is the count of the independent blocked tag
(`filter isBlocked`), which can overlap each of the three buckets, as the
three concrete one-issue sprints show. -/
theorem calculateMetrics_partition_blocked_tag :
    (∀ sd : SprintData,
        (calculateMetrics sd).completedIssues
          + (calculateMetrics sd).inProgressIssues
          + (calculateMetrics sd).todoIssues
          = (calculateMetrics sd).totalIssues) ∧
    (∀ sd : SprintData,
        (calculateMetrics sd).blockedIssues
          = (sd.issues.filter (fun i => isBlocked i)).length) ∧
    ((calculateMetrics ⟨exampleSprint, [doneBlockedIssue]⟩).completedIssues = 1 ∧
      (calculateMetrics ⟨exampleSprint, [doneBlockedIssue]⟩).blockedIssues = 1) ∧
    ((calculateMetrics ⟨exampleSprint, [inProgressBlockedIssue]⟩).inProgressIssues = 1 ∧
      (calculateMetrics ⟨exampleSprint, [inProgressBlockedIssue]⟩).blockedIssues = 1) ∧
    ((calculateMetrics ⟨exampleSprint, [todoBlockedIssue]⟩).todoIssues = 1 ∧
      (calculateMetrics ⟨exampleSprint, [todoBlockedIssue]⟩).blockedIssues = 1) := by
  refine ⟨fun sd => ?_, fun sd => ?_,
    by with_unfolding_all decide, by with_unfolding_all decide,
    by with_unfolding_all decide⟩
  · simpa [calculateMetrics] using
      foldl_stepIssue_counts sd.issues ⟨[], [], [], [], 0, 0, [], []⟩
  · simpa [calculateMetrics] using
      congrArg List.length
        (foldl_stepIssue_blocked sd.issues ⟨[], [], [], [], 0, 0, [], []⟩)

/-- Claim C8.  On the empty issue list every count and story-point sum is zero
and both rates are zero; the division branch is guarded by
`issues.length > 0`, so no division happens. -/
theorem calculateMetrics_empty_zero (sprint : Sprint) :
    (calculateMetrics ⟨sprint, []⟩).totalIssues = 0 ∧
    (calculateMetrics ⟨sprint, []⟩).completedIssues = 0 ∧
    (calculateMetrics ⟨sprint, []⟩).inProgressIssues = 0 ∧
    (calculateMetrics ⟨sprint, []⟩).todoIssues = 0 ∧
    (calculateMetrics ⟨sprint, []⟩).blockedIssues = 0 ∧
    (calculateMetrics ⟨sprint, []⟩).totalStoryPoints = 0 ∧
    (calculateMetrics ⟨sprint, []⟩).completedStoryPoints = 0 ∧
    (calculateMetrics ⟨sprint, []⟩).completionRate = 0 ∧
    (calculateMetrics ⟨sprint, []⟩).velocityPercentage = 0 := by
  simp [calculateMetrics]

/-! ### Health classifier -/

lemma wipCheck_snd (metrics : Metrics) (st : List HealthIndicator × String) :
    (wipCheck metrics st).2 = st.2 := by
  unfold wipCheck; split_ifs <;> rfl

/-- The closed form of the overall rating: worst wins, a positive blocked
count forces at least `Fair`. -/
lemma overallHealth_char (m : Metrics) :
    (analyzeSprintHealth m).overallHealth =
      if m.velocityPercentage < 60 ∨ m.completionRate < 60 then "Poor"
      else if m.velocityPercentage < 80 ∨ m.completionRate < 80
          ∨ 0 < m.blockedIssues then "Fair"
      else "Good" := by
  by_cases h1 : m.velocityPercentage < 60 <;>
    by_cases h2 : m.velocityPercentage < 80 <;>
    by_cases h3 : m.completionRate < 60 <;>
    by_cases h4 : m.completionRate < 80 <;>
    by_cases h5 : 0 < m.blockedIssues <;>
    simp [analyzeSprintHealth, velocityCheck, completionRateCheck,
      blockedCheck, wipCheck_snd, h1, h2, h3, h4, h5]

/-- Claim C2.  The overall rating follows the monotonic worst-wins rule: a Poor
indicator forces `Poor`; otherwise a Fair trigger forces `Fair`; a positive
blocked count forces at least `Fair`, never erases a `Poor` and never improves
the rating; the in-progress count (the work-in-progress warning) never changes
the overall rating; and at velocity 85 / completion 90 / no blockers the
rating is `Good`. -/
theorem analyzeSprintHealth_worst_wins (m : Metrics) :
    ((m.velocityPercentage < 60 ∨ m.completionRate < 60) →
      (analyzeSprintHealth m).overallHealth = "Poor") ∧
    (¬(m.velocityPercentage < 60 ∨ m.completionRate < 60) →
      (m.velocityPercentage < 80 ∨ m.completionRate < 80) →
      (analyzeSprintHealth m).overallHealth = "Fair") ∧
    (0 < m.blockedIssues → (analyzeSprintHealth m).overallHealth ≠ "Good") ∧
    ((analyzeSprintHealth { m with blockedIssues := 0 }).overallHealth = "Poor" →
      (analyzeSprintHealth m).overallHealth = "Poor") ∧
    ratingRank ((analyzeSprintHealth { m with blockedIssues := 0 }).overallHealth)
      ≤ ratingRank ((analyzeSprintHealth m).overallHealth) ∧
    (∀ k, (analyzeSprintHealth { m with inProgressIssues := k }).overallHealth
        = (analyzeSprintHealth m).overallHealth) ∧
    (analyzeSprintHealth (mkMetrics 85 90 0 0 0 0)).overallHealth = "Good" := by
  by_cases h1 : m.velocityPercentage < 60 <;>
    by_cases h2 : m.velocityPercentage < 80 <;>
    by_cases h3 : m.completionRate < 60 <;>
    by_cases h4 : m.completionRate < 80 <;>
    by_cases h5 : 0 < m.blockedIssues <;>
    norm_num [overallHealth_char, h1, h2, h3, h4, h5, ratingRank, mkMetrics] <;>
    decide

/-- Witness for `analyzeSprintHealth_worst_wins`: a Poor velocity forces an
overall `Poor`, and the 85/90/0 example is `Good`. -/
theorem analyzeSprintHealth_worst_wins_witness :
    (analyzeSprintHealth (mkMetrics 50 90 0 0 0 0)).overallHealth = "Poor" ∧
    (analyzeSprintHealth (mkMetrics 85 90 0 0 0 0)).overallHealth = "Good" :=
  ⟨(analyzeSprintHealth_worst_wins (mkMetrics 50 90 0 0 0 0)).1
      (Or.inl (by norm_num [mkMetrics])),
   (analyzeSprintHealth_worst_wins (mkMetrics 85 90 0 0 0 0)).2.2.2.2.2.2⟩

/-- Claim C7.  The indicators are emitted in the fixed order: Velocity first,
Completion Rate second, then Blockers exactly when `blockedIssues > 0`, then
Work in Progress exactly when `inProgressIssues > completedIssues`. -/
theorem analyzeSprintHealth_indicator_order (m : Metrics) :
    ((analyzeSprintHealth m).healthIndicators.map fun i => i.indicator) =
      ["Velocity", "Completion Rate"]
        ++ (if 0 < m.blockedIssues then ["Blockers"] else [])
        ++ (if m.completedIssues < m.inProgressIssues then
              ["Work in Progress"] else []) := by
  by_cases h1 : m.velocityPercentage < 60 <;>
    by_cases h2 : m.velocityPercentage < 80 <;>
    by_cases h3 : m.completionRate < 60 <;>
    by_cases h4 : m.completionRate < 80 <;>
    by_cases h5 : 0 < m.blockedIssues <;>
    by_cases h6 : m.completedIssues < m.inProgressIssues <;>
    simp [analyzeSprintHealth, velocityCheck, completionRateCheck,
      blockedCheck, wipCheck, h1, h2, h3, h4, h5, h6]

/-- Claim C3.  The rule-based fallback is total and never empty, its
`(category, priority)` projection is exactly the spec's rule table evaluated
in order, and at velocity 50 / 2 blocked / 5 in progress / 3 completed /
1 todo it returns precisely the four expected entries. -/
theorem generateFallbackRecommendations_rule_table (m : Metrics) :
    generateFallbackRecommendations m ≠ [] ∧
    ((generateFallbackRecommendations m).map fun r => (r.category, r.priority))
      = fallbackSpecPairs m ∧
    generateFallbackRecommendations (mkMetrics 50 0 2 5 3 1) =
      [⟨"Velocity", "High",
        "Consider reducing sprint commitment or identifying impediments affecting team velocity"⟩,
       ⟨"Blockers", "High",
        "Address 2 blocked issue(s) immediately to prevent future sprint delays"⟩,
       ⟨"WIP Limit", "Medium",
        "Too much work in progress. Consider implementing WIP limits to improve flow"⟩,
       ⟨"Sprint Planning", "Medium",
        "1 issue(s) not started. Review sprint planning and capacity"⟩] := by
  refine ⟨?_, ?_, by with_unfolding_all decide⟩ <;>
    by_cases h1 : m.velocityPercentage < 80 <;>
    by_cases h2 : 0 < m.blockedIssues <;>
    by_cases h3 : m.completedIssues < m.inProgressIssues <;>
    by_cases h4 : 0 < m.todoIssues <;>
    simp [generateFallbackRecommendations, fallbackSpecPairs, h1, h2, h3, h4]

/-! ### Accomplishment extraction -/

/-- Claim C6.  `priorityOrder[...] || 5` treats the rank `0` of `Highest` as
falsy, so the code ranks `Highest` like an unknown priority (5) and sorts it
*after* `High`, while the claimed mapping (rank 0) would keep it first. -/
theorem extractAccomplishments_highest_rank_bug :
    effPriorityRank (some "Highest") = 5 ∧
    specPriorityRank (some "Highest") = 0 ∧
    ((extractAccomplishments metricsHighestHigh []).1.map fun a => a.key)
      = ["HIGH-1", "HIGHEST-1"] ∧
    ((List.insertionSort specAccRel
        metricsHighestHigh.statusGroups.completed).map fun i => i.key)
      = ["HIGHEST-1", "HIGH-1"] ∧
    ((extractAccomplishments metricsHighestHigh []).1.map fun a => a.key)
      ≠ ((List.insertionSort specAccRel
          metricsHighestHigh.statusGroups.completed).map fun i => i.key) := by
  with_unfolding_all decide

/-- Claim C9, counterexample.  `extractAccomplishments` sorts
`metrics.statusGroups.completed` in place (`Array.prototype.sort`), so the
order of the completed bucket after the call differs from the order before
it. -/
theorem extractAccomplishments_mutates_completed :
    (extractAccomplishments metricsMediumHigh []).2.statusGroups.completed
      ≠ metricsMediumHigh.statusGroups.completed := by
  with_unfolding_all decide

/-- Claim C9, amended.  `extractBlockers` is pure, and `extractAccomplishments`
leaves every part of the metrics unchanged except the order of
`statusGroups.completed`, which it stably re-sorts in place (a permutation of
the original); the blocker extraction is unaffected by that mutation. -/
theorem extractAccomplishments_frame (m : Metrics) (issues : List Issue) :
    ((extractAccomplishments m issues).2.statusGroups.completed).Perm
        m.statusGroups.completed ∧
    List.Sorted accRel
      (extractAccomplishments m issues).2.statusGroups.completed ∧
    (extractAccomplishments m issues).2.statusGroups.inProgress
      = m.statusGroups.inProgress ∧
    (extractAccomplishments m issues).2.statusGroups.todo
      = m.statusGroups.todo ∧
    (extractAccomplishments m issues).2.statusGroups.blocked
      = m.statusGroups.blocked ∧
    { (extractAccomplishments m issues).2 with statusGroups := m.statusGroups }
      = m ∧
    extractBlockers (extractAccomplishments m issues).2 = extractBlockers m := by
  refine ⟨?_, ?_, rfl, rfl, rfl, ?_, rfl⟩
  · simpa [extractAccomplishments] using
      List.perm_insertionSort accRel m.statusGroups.completed
  · simpa [extractAccomplishments] using
      List.sorted_insertionSort accRel m.statusGroups.completed
  · rfl

/-! ### Aggregator -/

/-- Claim C5.  Both combined rates are recomputed from the summed totals:
the combined completion rate depends only on the sums of completed and total
issues, and the combined velocity percentage depends only on the sums of
completed and total story points; the 100% (1/1) and 0% (0/1) pair combines
to `50.0%` on both rates; and against a 0% entity with larger denominators
(0 of 3 issues, 0 of 3 story points) both combined rates are `25.0%`, not
the `50.0%` an average of the displayed per-entity rates would give. -/
theorem generateCombinedSummary_sums (l₁ l₂ : List Summary)
    (h₁ : l₁ ≠ []) (h₂ : l₂ ≠ []) :
    ((l₁.map fun s => s.sprintHealthMetrics.completedIssues).sum
        = (l₂.map fun s => s.sprintHealthMetrics.completedIssues).sum →
      (l₁.map fun s => s.sprintHealthMetrics.totalIssues).sum
        = (l₂.map fun s => s.sprintHealthMetrics.totalIssues).sum →
      ((generateCombinedSummary l₁).map
          fun c => c.sprintHealthMetrics.completionRate)
        = ((generateCombinedSummary l₂).map
            fun c => c.sprintHealthMetrics.completionRate)) ∧
    ((l₁.map fun s => s.sprintHealthMetrics.completedStoryPoints).sum
        = (l₂.map fun s => s.sprintHealthMetrics.completedStoryPoints).sum →
      (l₁.map fun s => s.sprintHealthMetrics.totalStoryPoints).sum
        = (l₂.map fun s => s.sprintHealthMetrics.totalStoryPoints).sum →
      ((generateCombinedSummary l₁).map
          fun c => c.sprintHealthMetrics.velocityPercentage)
        = ((generateCombinedSummary l₂).map
            fun c => c.sprintHealthMetrics.velocityPercentage)) ∧
    ((generateCombinedSummary [summaryAllDone, summaryNoneDone]).map
        fun c => c.sprintHealthMetrics.completionRate) = some "50.0%" ∧
    ((generateCombinedSummary [summaryAllDone, summaryNoneDone]).map
        fun c => c.sprintHealthMetrics.velocityPercentage) = some "50.0%" ∧
    ((generateCombinedSummary [summaryAllDone, summaryNoneDoneBig]).map
        fun c => c.sprintHealthMetrics.completionRate) = some "25.0%" ∧
    ((generateCombinedSummary [summaryAllDone, summaryNoneDoneBig]).map
        fun c => c.sprintHealthMetrics.velocityPercentage) = some "25.0%" := by
  refine ⟨fun hc ht => ?_, fun hcs hts => ?_,
    by with_unfolding_all decide, by with_unfolding_all decide,
    by with_unfolding_all decide, by with_unfolding_all decide⟩
  · simp only [generateCombinedSummary, h₁, h₂, List.length_eq_zero,
      if_false, Option.map_some, hc, ht]
    rfl
  · simp only [generateCombinedSummary, h₁, h₂, List.length_eq_zero,
      if_false, Option.map_some, hcs, hts]
    rfl

/-- Witness for `generateCombinedSummary_sums` at the claim's two-summary
input, on both rates. -/
theorem generateCombinedSummary_sums_witness :
    ((generateCombinedSummary [summaryAllDone, summaryNoneDone]).map
        fun c => c.sprintHealthMetrics.completionRate) = some "50.0%" ∧
    ((generateCombinedSummary [summaryAllDone, summaryNoneDone]).map
        fun c => c.sprintHealthMetrics.velocityPercentage) = some "50.0%" :=
  ⟨(generateCombinedSummary_sums [summaryAllDone, summaryNoneDone]
      [summaryAllDone, summaryNoneDone]
      (List.cons_ne_nil _ _) (List.cons_ne_nil _ _)).2.2.1,
   (generateCombinedSummary_sums [summaryAllDone, summaryNoneDone]
      [summaryAllDone, summaryNoneDone]
      (List.cons_ne_nil _ _) (List.cons_ne_nil _ _)).2.2.2.1⟩

/-- Claim C10.  The aggregator returns `none` on an empty summary list, and
saving that `none` returns `none` and writes no file. -/
theorem generateCombinedSummary_empty_none :
    generateCombinedSummary [] = none ∧
    ∀ outputDir : String,
      saveCombinedSummary (generateCombinedSummary []) outputDir
        = (none, []) :=
  ⟨rfl, fun _ => rfl⟩

end SprintSummary
